import Mathlib

/-!
Verification of the line-oriented JSON-RPC style server in `mcp_server.py`.

The embedding follows the source file directly:
* `PyVal` models decoded JSON values (Python objects produced by `json.loads`):
  `None`, booleans, integers, floats, strings, lists and string-keyed dicts.
  Python floats are modelled as exact rationals; none of the verified
  properties depends on binary floating-point rounding.
* Raised Python exceptions are modelled with `Except String`, carrying the
  `str(e)` rendering that the handlers interpolate into error messages.
* `handle_message`, the individual handlers and the `main` read/dispatch/write
  loop are translated function by function.  The `datetime.now()` calls are
  modelled by an explicit `now : String` parameter (the formatted timestamp);
  no verified property depends on its value.
-/

/-- A decoded JSON value / the Python objects the server manipulates.
Dicts are association lists in insertion order with first-match lookup
(decoded JSON objects have unique keys). -/
inductive PyVal where
  | none : PyVal
  | bool : Bool → PyVal
  | int : Int → PyVal
  | float : Rat → PyVal
  | str : String → PyVal
  | list : List PyVal → PyVal
  | dict : List (String × PyVal) → PyVal

/-- Python `type(v).__name__`, used in exception messages. -/
def PyVal.typeName : PyVal → String
  | .none => "NoneType"
  | .bool _ => "bool"
  | .int _ => "int"
  | .float _ => "float"
  | .str _ => "str"
  | .list _ => "list"
  | .dict _ => "dict"

/-- Python `v == s` for a string literal `s`: true exactly when `v` is an
equal string.  This is how the dispatch chain compares method names, tool
names and resource URIs. -/
def PyVal.isStrEq (v : PyVal) (s : String) : Bool :=
  match v with
  | .str t => t = s
  | _ => false

/-- Decimal rendering of a Python float (modelled as an exact rational):
shortest decimal expansion when the denominator divides a power of ten,
matching `str` on exactly-representable decimals. -/
def floatStr (q : Rat) : String :=
  if q.den = 1 then toString q.num ++ ".0"
  else
    match (List.range 31).find? (fun k => (q * (10 : Rat) ^ k).den = 1) with
    | some k =>
      let n := (q * (10 : Rat) ^ k).num
      let sign := if n < 0 then "-" else ""
      let ds := toString n.natAbs
      let ds := (String.mk (List.replicate (k + 1 - ds.length) '0')) ++ ds
      let ip := ds.take (ds.length - k)
      let fp := ds.drop (ds.length - k)
      sign ++ ip ++ "." ++ fp
    | _ => toString q.num ++ "/" ++ toString q.den

mutual

/-- Python `repr`, approximated: strings are wrapped in single quotes without
escaping (the rendered strings in this development contain no quotes). -/
def pyRepr : PyVal → String
  | .none => "None"
  | .bool true => "True"
  | .bool false => "False"
  | .int n => toString n
  | .float q => floatStr q
  | .str s => "\x27" ++ s ++ "\x27"
  | .list xs => "[" ++ pyReprSeq xs ++ "]"
  | .dict kvs => "\x7b" ++ pyReprPairs kvs ++ "\x7d"

/-- Comma-separated `repr`s of the elements of a list. -/
def pyReprSeq : List PyVal → String
  | [] => ""
  | [x] => pyRepr x
  | x :: xs => pyRepr x ++ ", " ++ pyReprSeq xs

/-- Comma-separated `repr`s of the key/value pairs of a dict. -/
def pyReprPairs : List (String × PyVal) → String
  | [] => ""
  | [(k, v)] => "\x27" ++ k ++ "\x27: " ++ pyRepr v
  | (k, v) :: kvs => "\x27" ++ k ++ "\x27: " ++ pyRepr v ++ ", " ++ pyReprPairs kvs

end

/-- Python `str(v)`, as interpolated by f-strings. -/
def pyStr : PyVal → String
  | .str s => s
  | v => pyRepr v

/-- Python `v.get(key)`: on a dict, the stored value or `None`; on any other
value an `AttributeError` is raised (modelled as `Except.error` with the
`str` of the exception). -/
def pyGet (v : PyVal) (key : String) : Except String PyVal :=
  match v with
  | .dict kvs => .ok ((kvs.lookup key).getD .none)
  | _ => .error ("\x27" ++ v.typeName ++ "\x27 object has no attribute \x27get\x27")

/-- Python `v.get(key, default)`: the default applies only when the key is
missing (a stored `None` is returned as is). -/
def pyGetD (v : PyVal) (key : String) (default : PyVal) : Except String PyVal :=
  match v with
  | .dict kvs => .ok ((kvs.lookup key).getD default)
  | _ => .error ("\x27" ++ v.typeName ++ "\x27 object has no attribute \x27get\x27")

/-- Python `d[key]` on a dict literal whose key is known to be present. -/
def dictItem (v : PyVal) (key : String) : PyVal :=
  match v with
  | .dict kvs => (kvs.lookup key).getD .none
  | _ => .none

/-- The error member of a response envelope: `{"code": ..., "message": ...}`. -/
structure ErrObj where
  code : Int
  message : String

/-- A response dict as built by the server.  `id = Option.none` models the
response dicts that carry no `"id"` key at all (only the parse-error
response); `id = some v` models a present `"id"` key holding `v`
(`PyVal.none` rendering as JSON `null`).  The `result`/`error` fields mirror
the presence of the corresponding keys. -/
structure Response where
  jsonrpc : String := "2.0"
  id : Option PyVal := Option.none
  result : Option PyVal := Option.none
  error : Option ErrObj := Option.none

/-! ### The arithmetic evaluator reached from the `calculate` tool

`handle_tools_call` filters the expression through
`allowed_chars = set("0123456789+-*/(). ")` and then calls Python `eval`.
Only numeric expressions over `+ - * / // **`, unary signs, parentheses and
int/float literals are expressible in that character set, so `eval` is
embedded as a tokenizer plus a precedence-respecting evaluator over exactly
those forms.  Floats are exact rationals; exceptions travel as
`Except.error (str e)`. -/

/-- Tokens of the restricted expression language reachable through the
`calculate` character filter. -/
inductive Tok where
  | num : PyVal → Tok
  | plus | minus | star | slash | dstar | dslash | lpar | rpar

/-- Value of a list of decimal digit characters. -/
def digitsToNat (cs : List Char) : Nat :=
  cs.foldl (fun a c => 10 * a + (c.toNat - 48)) 0

/-- Split a maximal run of leading digits. -/
def takeDigits (cs : List Char) : List Char × List Char :=
  (cs.takeWhile Char.isDigit, cs.dropWhile Char.isDigit)

/-- Lex one numeric literal (Python tokenizer: `digits [. digits]` or
`. digits`); a lone dot is a syntax error. -/
def lexNumber (cs : List Char) : Except String (PyVal × List Char) :=
  let p := takeDigits cs
  match p.2 with
  | '.' :: rest2 =>
    let q := takeDigits rest2
    if p.1.isEmpty && q.1.isEmpty then .error "invalid syntax"
    else .ok (.float ((digitsToNat (p.1 ++ q.1) : Rat) / (10 : Rat) ^ q.1.length), q.2)
  | _ =>
    if p.1.isEmpty then .error "invalid syntax"
    else .ok (.int (digitsToNat p.1), p.2)

/-- Fueled tokenizer; fuel bounded by the character count. -/
def lexAux : Nat → List Char → Except String (List Tok)
  | _, [] => .ok []
  | 0, _ :: _ => .error "invalid syntax"
  | fuel + 1, c :: cs =>
    if c = ' ' then lexAux fuel cs
    else if c.isDigit || c = '.' then
      match lexNumber (c :: cs) with
      | .error e => .error e
      | .ok (v, rest) => (lexAux fuel rest).map (fun ts => Tok.num v :: ts)
    else if c = '*' then
      match cs with
      | '*' :: cs2 => (lexAux fuel cs2).map (fun ts => Tok.dstar :: ts)
      | _ => (lexAux fuel cs).map (fun ts => Tok.star :: ts)
    else if c = '/' then
      match cs with
      | '/' :: cs2 => (lexAux fuel cs2).map (fun ts => Tok.dslash :: ts)
      | _ => (lexAux fuel cs).map (fun ts => Tok.slash :: ts)
    else if c = '+' then (lexAux fuel cs).map (fun ts => Tok.plus :: ts)
    else if c = '-' then (lexAux fuel cs).map (fun ts => Tok.minus :: ts)
    else if c = '(' then (lexAux fuel cs).map (fun ts => Tok.lpar :: ts)
    else if c = ')' then (lexAux fuel cs).map (fun ts => Tok.rpar :: ts)
    else .error "invalid character"

/-- Numeric view of a Python value (ints embed into rationals). -/
def PyVal.toQ : PyVal → Option Rat
  | .int n => some (n : Rat)
  | .float q => some q
  | _ => Option.none

/-- Python `+` on numbers: int stays int, otherwise float. -/
def pyAdd : PyVal → PyVal → Except String PyVal
  | .int m, .int n => .ok (.int (m + n))
  | a, b =>
    match a.toQ, b.toQ with
    | some x, some y => .ok (.float (x + y))
    | _, _ => .error "unsupported operand type(s) for +"

/-- Python binary `-` on numbers. -/
def pySub : PyVal → PyVal → Except String PyVal
  | .int m, .int n => .ok (.int (m - n))
  | a, b =>
    match a.toQ, b.toQ with
    | some x, some y => .ok (.float (x - y))
    | _, _ => .error "unsupported operand type(s) for -"

/-- Python `*` on numbers. -/
def pyMul : PyVal → PyVal → Except String PyVal
  | .int m, .int n => .ok (.int (m * n))
  | a, b =>
    match a.toQ, b.toQ with
    | some x, some y => .ok (.float (x * y))
    | _, _ => .error "unsupported operand type(s) for *"

/-- Python `/`: true division, always a float; raises `ZeroDivisionError`
on a zero divisor. -/
def pyDiv (a b : PyVal) : Except String PyVal :=
  match a.toQ, b.toQ with
  | some x, some y =>
    if y = 0 then .error "division by zero" else .ok (.float (x / y))
  | _, _ => .error "unsupported operand type(s) for /"

/-- Python `//`: floor division; int result on ints, float on floats. -/
def pyFloorDiv : PyVal → PyVal → Except String PyVal
  | .int m, .int n =>
    if n = 0 then .error "integer division or modulo by zero"
    else .ok (.int (Int.fdiv m n))
  | a, b =>
    match a.toQ, b.toQ with
    | some x, some y =>
      if y = 0 then .error "float floor division by zero"
      else .ok (.float ((⌊x / y⌋ : Int) : Rat))
    | _, _ => .error "unsupported operand type(s) for //"

/-- Rational power with integer exponent. -/
def qpow (q : Rat) (e : Int) : Rat :=
  if 0 ≤ e then q ^ e.toNat else (q ^ (-e).toNat)⁻¹

/-- Python `**` on numbers.  Non-integral float exponents (whose Python value
is an irrational float approximation) are outside the rational model and are
mapped to an error; no verified property evaluates such an exponent. -/
def pyPow : PyVal → PyVal → Except String PyVal
  | .int b, .int e =>
    if 0 ≤ e then .ok (.int (b ^ e.toNat))
    else if b = 0 then .error "0.0 cannot be raised to a negative power"
    else .ok (.float (qpow (b : Rat) e))
  | a, b =>
    match a.toQ, b.toQ with
    | some x, some y =>
      if y.den = 1 then
        if x = 0 ∧ y.num < 0 then .error "0.0 cannot be raised to a negative power"
        else .ok (.float (qpow x y.num))
      else .error "non-integral exponent outside the rational model"
    | _, _ => .error "unsupported operand type(s) for **"

/-- Python unary `-` on numbers. -/
def pyNeg : PyVal → Except String PyVal
  | .int n => .ok (.int (-n))
  | .float q => .ok (.float (-q))
  | _ => .error "bad operand type for unary -"

/-- Python unary `+` on numbers. -/
def pyPos : PyVal → Except String PyVal
  | .int n => .ok (.int n)
  | .float q => .ok (.float q)
  | _ => .error "bad operand type for unary +"

/-- Parser state: which grammar production is being read (`exprTail` and
`termTail` carry the value accumulated so far). -/
inductive PMode where
  | expr | exprTail (acc : PyVal) | term | termTail (acc : PyVal) | factor | power

/-- Fueled recursive-descent evaluator with Python precedence:
`expr := term ((+|-) term)*`, `term := factor ((*|/|//) factor)*`,
`factor := (+|-) factor | power`, `power := atom [** factor]`,
`atom := number | ( expr )`.  Runtime errors (for example division by zero)
propagate as the raised exception text. -/
def parseM : Nat → PMode → List Tok → Except String (PyVal × List Tok)
  | 0, _, _ => .error "invalid syntax"
  | fuel + 1, .expr, ts =>
    match parseM fuel .term ts with
    | .error e => .error e
    | .ok (v, ts1) => parseM fuel (.exprTail v) ts1
  | fuel + 1, .exprTail acc, .plus :: ts =>
    match parseM fuel .term ts with
    | .error e => .error e
    | .ok (v, ts1) =>
      match pyAdd acc v with
      | .error e => .error e
      | .ok s => parseM fuel (.exprTail s) ts1
  | fuel + 1, .exprTail acc, .minus :: ts =>
    match parseM fuel .term ts with
    | .error e => .error e
    | .ok (v, ts1) =>
      match pySub acc v with
      | .error e => .error e
      | .ok s => parseM fuel (.exprTail s) ts1
  | _ + 1, .exprTail acc, ts => .ok (acc, ts)
  | fuel + 1, .term, ts =>
    match parseM fuel .factor ts with
    | .error e => .error e
    | .ok (v, ts1) => parseM fuel (.termTail v) ts1
  | fuel + 1, .termTail acc, .star :: ts =>
    match parseM fuel .factor ts with
    | .error e => .error e
    | .ok (v, ts1) =>
      match pyMul acc v with
      | .error e => .error e
      | .ok s => parseM fuel (.termTail s) ts1
  | fuel + 1, .termTail acc, .slash :: ts =>
    match parseM fuel .factor ts with
    | .error e => .error e
    | .ok (v, ts1) =>
      match pyDiv acc v with
      | .error e => .error e
      | .ok s => parseM fuel (.termTail s) ts1
  | fuel + 1, .termTail acc, .dslash :: ts =>
    match parseM fuel .factor ts with
    | .error e => .error e
    | .ok (v, ts1) =>
      match pyFloorDiv acc v with
      | .error e => .error e
      | .ok s => parseM fuel (.termTail s) ts1
  | _ + 1, .termTail acc, ts => .ok (acc, ts)
  | fuel + 1, .factor, .plus :: ts =>
    match parseM fuel .factor ts with
    | .error e => .error e
    | .ok (v, ts1) =>
      match pyPos v with
      | .error e => .error e
      | .ok w => .ok (w, ts1)
  | fuel + 1, .factor, .minus :: ts =>
    match parseM fuel .factor ts with
    | .error e => .error e
    | .ok (v, ts1) =>
      match pyNeg v with
      | .error e => .error e
      | .ok w => .ok (w, ts1)
  | fuel + 1, .factor, ts => parseM fuel .power ts
  | fuel + 1, .power, .num v :: ts =>
    match ts with
    | .dstar :: ts2 =>
      match parseM fuel .factor ts2 with
      | .error e => .error e
      | .ok (w, ts3) =>
        match pyPow v w with
        | .error e => .error e
        | .ok u => .ok (u, ts3)
    | _ => .ok (v, ts)
  | fuel + 1, .power, .lpar :: ts =>
    match parseM fuel .expr ts with
    | .error e => .error e
    | .ok (v, .rpar :: ts2) =>
      match ts2 with
      | .dstar :: ts3 =>
        match parseM fuel .factor ts3 with
        | .error e => .error e
        | .ok (w, ts4) =>
          match pyPow v w with
          | .error e => .error e
          | .ok u => .ok (u, ts4)
      | _ => .ok (v, ts2)
    | .ok _ => .error "invalid syntax"
  | _ + 1, .power, _ => .error "invalid syntax"

/-- Python `eval` on a string over the `calculate` character set: tokenize,
parse a full expression, require all input consumed. -/
def pyEval (s : String) : Except String PyVal :=
  match lexAux s.toList.length s.toList with
  | .error e => .error e
  | .ok ts =>
    match parseM (5 * ts.length + 10) .expr ts with
    | .error e => .error e
    | .ok (v, []) => .ok v
    | .ok (_, _ :: _) => .error "invalid syntax"

example : pyEval "2 + 3 * 4" = .ok (.int 14) := rfl
example : pyEval "2**3" = .ok (.int 8) := rfl
example : pyEval "(1 + 2) * 3" = .ok (.int 9) := rfl
example : pyEval "1/0" = .error "division by zero" := rfl
example : pyEval "1/2" = .ok (.float (1 / 2 : Rat)) := rfl
example : pyEval "-2**2" = .ok (.int (-4)) := rfl
example : pyEval "" = .error "invalid syntax" := rfl
example : pyEval "2 +" = .error "invalid syntax" := rfl

/-! ### The server: registries and handlers -/

/-- Tool descriptor for `get_weather` as registered in `MCPServer.__init__`. -/
def weatherToolDesc : PyVal := .dict [
  ("name", .str "get_weather"),
  ("description", .str "Get current weather for a city"),
  ("inputSchema", .dict [
    ("type", .str "object"),
    ("properties", .dict [
      ("city", .dict [
        ("type", .str "string"),
        ("description", .str "City name")])]),
    ("required", .list [.str "city"])])]

/-- Tool descriptor for `calculate` as registered in `MCPServer.__init__`. -/
def calculateToolDesc : PyVal := .dict [
  ("name", .str "calculate"),
  ("description", .str "Perform basic arithmetic calculations"),
  ("inputSchema", .dict [
    ("type", .str "object"),
    ("properties", .dict [
      ("expression", .dict [
        ("type", .str "string"),
        ("description", .str "Mathematical expression to evaluate (e.g., \x272 + 3 * 4\x27)")])]),
    ("required", .list [.str "expression"])])]

/-- Resource descriptor for the notes file as registered in
`MCPServer.__init__`. -/
def notesResourceDesc : PyVal := .dict [
  ("uri", .str "file://notes.txt"),
  ("name", .str "Personal Notes"),
  ("description", .str "A simple text file with personal notes"),
  ("mimeType", .str "text/plain")]

/-- The server state: the tool and resource registries built once in
`MCPServer.__init__` and never mutated afterwards. -/
structure MCPServer where
  tools : List (String × PyVal)
  resources : List (String × PyVal)

/-- `MCPServer()` as constructed at startup. -/
def MCPServer.mk0 : MCPServer :=
  { tools := [("get_weather", weatherToolDesc), ("calculate", calculateToolDesc)],
    resources := [("file://notes.txt", notesResourceDesc)] }

/-- `handle_initialize`: static handshake result. -/
def handle_initialize_msg (msg_id : PyVal) (_params : PyVal) : Response :=
  { id := some msg_id,
    result := some (.dict [
      ("protocolVersion", .str "2024-11-05"),
      ("capabilities", .dict [
        ("tools", .dict []),
        ("resources", .dict [])]),
      ("serverInfo", .dict [
        ("name", .str "example-mcp-server"),
        ("version", .str "1.0.0")])]) }

/-- `handle_tools_list`: `list(self.tools.values())` in registration order. -/
def MCPServer.handle_tools_list (s : MCPServer) (msg_id : PyVal) : Response :=
  { id := some msg_id,
    result := some (.dict [("tools", .list (s.tools.map Prod.snd))]) }

/-- `handle_resources_list`: `list(self.resources.values())`. -/
def MCPServer.handle_resources_list (s : MCPServer) (msg_id : PyVal) : Response :=
  { id := some msg_id,
    result := some (.dict [("resources", .list (s.resources.map Prod.snd))]) }

/-- Membership of a value in `set("0123456789+-*/(). ")`. -/
def isAllowedCalcChar (c : Char) : Bool :=
  "0123456789+-*/(). ".toList.contains c

/-- Membership of an arbitrary Python value in the set of allowed characters
(only an equal single-character string is a member). -/
def inAllowedCharSet : PyVal → Bool
  | .str c => c.length = 1 && c.toList.all isAllowedCalcChar
  | _ => false

/-- `all(c in allowed_chars for c in expression)`: iterates a string by
characters, a list by elements, a dict by keys; non-iterable values raise
`TypeError`. -/
def allCharsAllowed : PyVal → Except String Bool
  | .str s => .ok (s.toList.all isAllowedCalcChar)
  | .list xs => .ok (xs.all inAllowedCharSet)
  | .dict kvs => .ok (kvs.all (fun kv => inAllowedCharSet (.str kv.1)))
  | v => .error ("\x27" ++ v.typeName ++ "\x27 object is not iterable")

/-- The body of the `calculate` `try:` block: character filter (raising
`ValueError` on foreign characters) followed by `eval`; `eval` on a non-string
raises `TypeError`. -/
def calcEval (expression : PyVal) : Except String PyVal :=
  match allCharsAllowed expression with
  | .error e => .error e
  | .ok ok =>
    if !ok then .error "Invalid characters in expression"
    else
      match expression with
      | .str s => pyEval s
      | _ => .error "eval() arg 1 must be a string, bytes or code object"

/-- The `calculate` branch of `handle_tools_call`: the `try/except` turns any
raised exception into a `-32602` calculation error, and a successful
evaluation into a single text content block `f"{expression} = {result}"`. -/
def calcResponse (msg_id expression : PyVal) : Response :=
  match calcEval expression with
  | .ok v =>
    { id := some msg_id,
      result := some (.dict [("content", .list [.dict [
        ("type", .str "text"),
        ("text", .str (pyStr expression ++ " = " ++ pyStr v))]])]) }
  | .error e =>
    { id := some msg_id,
      error := some ⟨-32602, "Calculation error: " ++ e⟩ }

/-- The `get_weather` branch of `handle_tools_call`: fabricated weather data;
the response text interpolates the city (defaulted to "Unknown") and fixed
condition, temperature and humidity.  The temperature string reproduces the
source file's bytes exactly. -/
def weatherResponse (now : String) (msg_id city : PyVal) : Response :=
  let weather_data : PyVal := .dict [
    ("city", city),
    ("temperature", .str "22Â°C"),
    ("condition", .str "Sunny"),
    ("humidity", .str "65%"),
    ("timestamp", .str now)]
  { id := some msg_id,
    result := some (.dict [("content", .list [.dict [
      ("type", .str "text"),
      ("text", .str ("Weather in " ++ pyStr city ++ ": "
        ++ pyStr (dictItem weather_data "condition") ++ ", "
        ++ pyStr (dictItem weather_data "temperature") ++ ", Humidity: "
        ++ pyStr (dictItem weather_data "humidity")))]])]) }

/-- `handle_tools_call`: reads `params.name` and `params.arguments` (either
read raises if `params` is not a dict), then branches on the tool name;
an unrecognized name yields the `-32602` unknown-tool error. -/
def handle_tools_call (now : String) (msg_id params : PyVal) :
    Except String Response :=
  match pyGet params "name" with
  | .error e => .error e
  | .ok tool_name =>
    match pyGetD params "arguments" (.dict []) with
    | .error e => .error e
    | .ok arguments =>
      if tool_name.isStrEq "get_weather" then
        match pyGetD arguments "city" (.str "Unknown") with
        | .error e => .error e
        | .ok city => .ok (weatherResponse now msg_id city)
      else if tool_name.isStrEq "calculate" then
        match pyGetD arguments "expression" (.str "") with
        | .error e => .error e
        | .ok expression => .ok (calcResponse msg_id expression)
      else
        .ok { id := some msg_id,
              error := some ⟨-32602, "Unknown tool: " ++ pyStr tool_name⟩ }

/-- The simulated notes file content (`datetime.now().strftime` modelled by
the `now` parameter). -/
def notesText (now : String) : String :=
  "Personal Notes\n===============\n\n1. Remember to buy groceries\n2. Call dentist for appointment\n3. Finish MCP server project\n4. Review quarterly reports\n\nLast updated: " ++ now

/-- `handle_resources_read`: reads `params.uri` (raising if `params` is not a
dict); the notes URI yields a `text/plain` contents entry echoing the URI, any
other value the `-32602` resource-not-found error. -/
def handle_resources_read (now : String) (msg_id params : PyVal) :
    Except String Response :=
  match pyGet params "uri" with
  | .error e => .error e
  | .ok uri =>
    if uri.isStrEq "file://notes.txt" then
      .ok { id := some msg_id,
            result := some (.dict [("contents", .list [.dict [
              ("uri", uri),
              ("mimeType", .str "text/plain"),
              ("text", .str (notesText now))]])]) }
    else
      .ok { id := some msg_id,
            error := some ⟨-32602, "Resource not found: " ++ pyStr uri⟩ }

/-- The `try:` body of `handle_message`: extract `method`, `params` and `id`
(each raising on a non-dict message) and dispatch on the method name;
the final branch is the `-32601` method-not-found error. -/
def handle_message_body (s : MCPServer) (now : String) (message : PyVal) :
    Except String Response :=
  match pyGet message "method" with
  | .error e => .error e
  | .ok method =>
    match pyGetD message "params" (.dict []) with
    | .error e => .error e
    | .ok params =>
      match pyGet message "id" with
      | .error e => .error e
      | .ok msg_id =>
        if method.isStrEq "initialize" then
          .ok (handle_initialize_msg msg_id params)
        else if method.isStrEq "tools/list" then
          .ok (s.handle_tools_list msg_id)
        else if method.isStrEq "tools/call" then
          handle_tools_call now msg_id params
        else if method.isStrEq "resources/list" then
          .ok (s.handle_resources_list msg_id)
        else if method.isStrEq "resources/read" then
          handle_resources_read now msg_id params
        else
          .ok { id := some msg_id,
                error := some ⟨-32601, "Method not found: " ++ pyStr method⟩ }

/-- `handle_message` with its `except Exception` clause: a fault raised in the
body is converted to the `-32603` internal error — but the clause itself
re-reads `message.get("id")`, which raises again when the decoded message is
not a dict, so in that case the fault escapes (`Except.error`). -/
def handle_message (s : MCPServer) (now : String) (message : PyVal) :
    Except String Response :=
  match handle_message_body s now message with
  | .ok r => .ok r
  | .error e =>
    match pyGet message "id" with
    | .error e2 => .error e2
    | .ok i => .ok { id := some i, error := some ⟨-32603, "Internal error: " ++ e⟩ }

/-- One input line of `main`, abstracted past `json.loads`: either the decoded
value, or the decode failure message of a line that is not valid JSON. -/
def DecodedLine : Type := Except String PyVal

/-- The `main` loop over the (decoded) input lines, returning the list of
emitted response lines in order.  A decode failure prints the `-32700` parse
error (no `"id"` key) and continues; a fault escaping `handle_message` hits
the outer `except Exception`, which logs to stderr and breaks the loop. -/
def mainLoop (s : MCPServer) (now : String) : List DecodedLine → List Response
  | [] => []
  | line :: rest =>
    match line with
    | .error e =>
      { error := some ⟨-32700, "Parse error: " ++ e⟩ } :: mainLoop s now rest
    | .ok message =>
      match handle_message s now message with
      | .ok r => r :: mainLoop s now rest
      | .error _ => []

/-! ### Spec-side definition for the arithmetic-grammar comparison -/

/-- Grammar production being recognized by `wfArith`. -/
inductive WMode where
  | expr | exprTail | term | termTail | factor

/-- Fueled recognizer for the spec's arithmetic grammar (returns the unread
tokens on success). -/
def wfArith : Nat → WMode → List Tok → Option (List Tok)
  | 0, _, _ => Option.none
  | fuel + 1, .expr, ts =>
    match wfArith fuel .term ts with
    | some ts1 => wfArith fuel .exprTail ts1
    | _ => Option.none
  | fuel + 1, .exprTail, .plus :: ts =>
    match wfArith fuel .term ts with
    | some ts1 => wfArith fuel .exprTail ts1
    | _ => Option.none
  | fuel + 1, .exprTail, .minus :: ts =>
    match wfArith fuel .term ts with
    | some ts1 => wfArith fuel .exprTail ts1
    | _ => Option.none
  | _ + 1, .exprTail, ts => some ts
  | fuel + 1, .term, ts =>
    match wfArith fuel .factor ts with
    | some ts1 => wfArith fuel .termTail ts1
    | _ => Option.none
  | fuel + 1, .termTail, .star :: ts =>
    match wfArith fuel .factor ts with
    | some ts1 => wfArith fuel .termTail ts1
    | _ => Option.none
  | fuel + 1, .termTail, .slash :: ts =>
    match wfArith fuel .factor ts with
    | some ts1 => wfArith fuel .termTail ts1
    | _ => Option.none
  | _ + 1, .termTail, ts => some ts
  | fuel + 1, .factor, .plus :: ts => wfArith fuel .factor ts
  | fuel + 1, .factor, .minus :: ts => wfArith fuel .factor ts
  | _ + 1, .factor, .num _ :: ts => some ts
  | fuel + 1, .factor, .lpar :: ts =>
    match wfArith fuel .expr ts with
    | some (.rpar :: ts2) => some ts2
    | _ => Option.none
  | _ + 1, .factor, _ => Option.none

/-- Follows the spec's words (sections 4.3 and 9), not the source: a
well-formed arithmetic expression over numbers, the four basic operators
`+ - * /` and parentheses — no identifiers, no function calls, no further
operators.  Used only to compare the source evaluator against the spec's
required grammar. -/
def specWellFormedArith (s : String) : Bool :=
  match lexAux s.toList.length s.toList with
  | .error _ => false
  | .ok ts =>
    match wfArith (5 * ts.length + 10) .expr ts with
    | some [] => true
    | _ => false

example : specWellFormedArith "2 + 3 * 4" = true := rfl
example : specWellFormedArith "-(1 + 2) * 3" = true := rfl
example : specWellFormedArith "2**3" = false := rfl
example : specWellFormedArith "1//2" = false := rfl
example : specWellFormedArith "" = false := rfl

/-! ### Claim-side helper definitions -/

/-- A response carries exactly one of a result payload or an error object. -/
def Response.exclusivePayload (r : Response) : Bool :=
  r.result.isSome != r.error.isSome

/-- The correlation identifier carried by a response: the value of its `"id"`
field when that value is an identifier; a missing `"id"` key and a JSON
`null` value both carry none. -/
def Response.corrId (r : Response) : Option PyVal :=
  match r.id with
  | some PyVal.none => Option.none
  | some v => some v
  | Option.none => Option.none

/-- The correlation identifier supplied by a decoded request object: the
value of its `"id"` member, where a missing member and a `null` value both
supply none. -/
def reqCorrId (kvs : List (String × PyVal)) : Option PyVal :=
  match kvs.lookup "id" with
  | some PyVal.none => Option.none
  | some v => some v
  | Option.none => Option.none

/-- The request's method value is one of the five recognized method names
(compared the way the dispatch chain compares, Python `==` with a string). -/
def isKnownMethod (v : PyVal) : Bool :=
  v.isStrEq "initialize" || v.isStrEq "tools/list" || v.isStrEq "tools/call"
    || v.isStrEq "resources/list" || v.isStrEq "resources/read"

/-- The decoded message is a JSON object (a Python dict). -/
def PyVal.isDict : PyVal → Bool
  | .dict _ => true
  | _ => false

/-- An input line that either fails to decode or decodes to a JSON object. -/
def lineOk : DecodedLine → Bool
  | .error _ => true
  | .ok v => v.isDict

/-- The single response the loop emits for one input line; the fallback
(empty) response is returned only for lines on which `handle_message`
lets a fault escape, which `lineOk` rules out. -/
def lineResponse (s : MCPServer) (now : String) : DecodedLine → Response
  | .error e => { error := some ⟨-32700, "Parse error: " ++ e⟩ }
  | .ok message =>
    match handle_message s now message with
    | .ok r => r
    | .error _ => { }

/-! ### Helper lemmas shared by the claim theorems -/

/-- Every `Except.ok` outcome of `handle_tools_call` echoes the given id and
carries exactly one of result/error. -/
lemma tools_call_ok_spec (now : String) (mid params : PyVal) (r : Response)
    (h : handle_tools_call now mid params = .ok r) :
    r.id = some mid ∧ r.exclusivePayload = true := by
  unfold handle_tools_call weatherResponse calcResponse at h
  repeat any_goals split at h
  all_goals try exact (Except.noConfusion h)
  all_goals (injection h with h; subst h; exact ⟨rfl, rfl⟩)

/-- Every `Except.ok` outcome of `handle_resources_read` echoes the given id
and carries exactly one of result/error. -/
lemma resources_read_ok_spec (now : String) (mid params : PyVal) (r : Response)
    (h : handle_resources_read now mid params = .ok r) :
    r.id = some mid ∧ r.exclusivePayload = true := by
  unfold handle_resources_read at h
  repeat any_goals split at h
  all_goals try exact (Except.noConfusion h)
  all_goals (injection h with h; subst h; exact ⟨rfl, rfl⟩)

/-- On a decoded JSON object the dispatch body either returns a response that
echoes the request id with an exclusive payload, or raises. -/
lemma body_dict_spec (s : MCPServer) (now : String)
    (kvs : List (String × PyVal)) :
    (∃ r, handle_message_body s now (.dict kvs) = .ok r
        ∧ r.id = some ((kvs.lookup "id").getD .none)
        ∧ r.exclusivePayload = true)
      ∨ (∃ e, handle_message_body s now (.dict kvs) = .error e) := by
  unfold handle_message_body
  simp only [pyGet, pyGetD]
  split
  · exact Or.inl ⟨_, rfl, rfl, rfl⟩
  split
  · exact Or.inl ⟨_, rfl, rfl, rfl⟩
  split
  · cases htc : handle_tools_call now ((kvs.lookup "id").getD .none)
        ((kvs.lookup "params").getD (.dict [])) with
    | ok r0 =>
      obtain ⟨hid, hex⟩ := tools_call_ok_spec _ _ _ _ htc
      exact Or.inl ⟨r0, rfl, hid, hex⟩
    | error e => exact Or.inr ⟨e, rfl⟩
  split
  · exact Or.inl ⟨_, rfl, rfl, rfl⟩
  split
  · cases hrr : handle_resources_read now ((kvs.lookup "id").getD .none)
        ((kvs.lookup "params").getD (.dict [])) with
    | ok r0 =>
      obtain ⟨hid, hex⟩ := resources_read_ok_spec _ _ _ _ hrr
      exact Or.inl ⟨r0, rfl, hid, hex⟩
    | error e => exact Or.inr ⟨e, rfl⟩
  exact Or.inl ⟨_, rfl, rfl, rfl⟩

/-- On every decoded JSON object, `handle_message` returns normally with a
response whose `"id"` field holds the request's id value and whose payload is
exactly one of result/error. -/
lemma handle_message_dict_spec (s : MCPServer) (now : String)
    (kvs : List (String × PyVal)) :
    ∃ r, handle_message s now (.dict kvs) = .ok r
      ∧ r.id = some ((kvs.lookup "id").getD .none)
      ∧ r.exclusivePayload = true := by
  unfold handle_message
  rcases body_dict_spec s now kvs with ⟨r, hb, hid, hex⟩ | ⟨e, hb⟩
  · rw [hb]
    exact ⟨r, rfl, hid, hex⟩
  · rw [hb]
    exact ⟨_, rfl, rfl, rfl⟩

/-! ### Claim theorems -/

/-- C1: for every decoded request message (a JSON object), any fault raised
while dispatching it — whatever the method, recognized or not — is caught and
converted into a single `-32603` response carrying the fault's description,
and the server loop goes on to process the following lines. -/
theorem dispatch_fault_internal_error (s : MCPServer) (now : String)
    (kvs : List (String × PyVal)) (e : String)
    (h : handle_message_body s now (.dict kvs) = .error e) :
    handle_message s now (.dict kvs)
      = .ok { id := some ((kvs.lookup "id").getD .none),
              error := some ⟨-32603, "Internal error: " ++ e⟩ }
    ∧ ∀ rest, mainLoop s now (.ok (.dict kvs) :: rest)
        = { id := some ((kvs.lookup "id").getD .none),
            error := some ⟨-32603, "Internal error: " ++ e⟩ } :: mainLoop s now rest := by
  have h1 : handle_message s now (.dict kvs)
      = .ok { id := some ((kvs.lookup "id").getD .none),
              error := some ⟨-32603, "Internal error: " ++ e⟩ } := by
    unfold handle_message
    rw [h]
    rfl
  refine ⟨h1, fun rest => ?_⟩
  show (match handle_message s now (.dict kvs) with
        | .ok r => r :: mainLoop s now rest
        | .error _ => []) = _
  rw [h1]

/-- Witness for C1: a `tools/call` request whose `params` member is a string
makes `params.get("name")` raise `AttributeError`; the reply is the `-32603`
internal error and the loop would continue. -/
theorem dispatch_fault_internal_error_witness :
    handle_message MCPServer.mk0 "2025-01-01T00:00:00"
        (.dict [("method", .str "tools/call"), ("params", .str "x")])
      = .ok { id := some .none,
              error := some ⟨-32603,
                "Internal error: \x27str\x27 object has no attribute \x27get\x27"⟩ } :=
  (dispatch_fault_internal_error MCPServer.mk0 "2025-01-01T00:00:00"
    [("method", .str "tools/call"), ("params", .str "x")] _ rfl).1

/-- C2 (code bug): the expression `"2**3"` passes the character filter, is
not a well-formed expression over numbers, the four basic operators and
parentheses (the spec's required grammar), yet the `calculate` tool evaluates
it through `eval` and answers with a successful result instead of the
required `-32602` rejection. -/
theorem calculate_accepts_power_operator :
    "2**3".toList.all isAllowedCalcChar = true
    ∧ specWellFormedArith "2**3" = false
    ∧ handle_tools_call "2025-01-01T00:00:00" (.str "7")
        (.dict [("name", .str "calculate"),
                ("arguments", .dict [("expression", .str "2**3")])])
      = .ok { id := some (.str "7"),
              result := some (.dict [("content", .list [.dict [
                ("type", .str "text"), ("text", .str "2**3 = 8")]])]) } :=
  ⟨rfl, rfl, rfl⟩

/-- C3: for every well-formed request (a JSON object) whose method is in the
fixed set, the single response returned carries the correlation identifier
supplied by the request, and carries none when the request supplied none. -/
theorem known_method_echoes_correlation (s : MCPServer) (now : String)
    (kvs : List (String × PyVal))
    (_h : isKnownMethod ((kvs.lookup "method").getD .none) = true) :
    ∃ r, handle_message s now (.dict kvs) = .ok r ∧ r.corrId = reqCorrId kvs := by
  obtain ⟨r, hr, hid, -⟩ := handle_message_dict_spec s now kvs
  refine ⟨r, hr, ?_⟩
  unfold Response.corrId reqCorrId
  rw [hid]
  cases hkl : kvs.lookup "id" with
  | none => rfl
  | some v => cases v <;> rfl

/-- Witness for C3: a `tools/list` request with id `"42"` is answered with a
response correlated to `"42"`. -/
theorem known_method_echoes_correlation_witness :
    isKnownMethod ((([("method", PyVal.str "tools/list"), ("id", PyVal.str "42")]
        : List (String × PyVal)).lookup "method").getD .none) = true
    ∧ ∃ r, handle_message MCPServer.mk0 "2025-01-01T00:00:00"
          (.dict [("method", .str "tools/list"), ("id", .str "42")]) = .ok r
        ∧ r.corrId = reqCorrId [("method", .str "tools/list"), ("id", .str "42")] :=
  ⟨rfl, known_method_echoes_correlation MCPServer.mk0 "2025-01-01T00:00:00"
    [("method", .str "tools/list"), ("id", .str "42")] rfl⟩

/-- C4: every input line that fails to decode produces exactly one `-32700`
response with no correlation identifier, after which the loop continues with
the remaining lines. -/
theorem undecodable_line_parse_error (s : MCPServer) (now : String)
    (e : String) (rest : List DecodedLine) :
    mainLoop s now (.error e :: rest)
      = { id := Option.none, result := Option.none,
          error := some ⟨-32700, "Parse error: " ++ e⟩ } :: mainLoop s now rest :=
  rfl

/-- C5: every decoded request (a JSON object) whose method value is not one
of the five recognized names is answered — without any unhandled fault — by
the `-32601` error naming the offending method. -/
theorem unknown_method_not_found (s : MCPServer) (now : String)
    (kvs : List (String × PyVal))
    (h : isKnownMethod ((kvs.lookup "method").getD .none) = false) :
    handle_message s now (.dict kvs)
      = .ok { id := some ((kvs.lookup "id").getD .none),
              error := some ⟨-32601,
                "Method not found: " ++ pyStr ((kvs.lookup "method").getD .none)⟩ } := by
  simp only [isKnownMethod, Bool.or_eq_false_iff] at h
  obtain ⟨⟨⟨⟨h1, h2⟩, h3⟩, h4⟩, h5⟩ := h
  unfold handle_message handle_message_body
  simp only [pyGet, pyGetD, h1, h2, h3, h4, h5, Bool.false_eq_true, if_false]

/-- Witness for C5: method `"foo"` is answered by
`Method not found: foo`. -/
theorem unknown_method_not_found_witness :
    isKnownMethod ((([("method", PyVal.str "foo"), ("id", PyVal.str "3")]
        : List (String × PyVal)).lookup "method").getD .none) = false
    ∧ handle_message MCPServer.mk0 "2025-01-01T00:00:00"
          (.dict [("method", .str "foo"), ("id", .str "3")])
        = .ok { id := some (.str "3"),
                error := some ⟨-32601, "Method not found: foo"⟩ } :=
  ⟨rfl, unknown_method_not_found MCPServer.mk0 "2025-01-01T00:00:00"
    [("method", .str "foo"), ("id", .str "3")] rfl⟩

/-- C6: `tools/call` with an unregistered tool name is answered by the
`-32602` error naming the tool; a registered tool with valid arguments is
answered by a result whose `content` is a non-empty list of `type: "text"`
blocks; and `calculate` on `"2 + 3 * 4"` yields a result text containing
`"14"`. -/
theorem tools_call_contract (now : String) :
    (∀ mid : PyVal, ∀ kvs : List (String × PyVal),
       ((kvs.lookup "name").getD PyVal.none).isStrEq "get_weather" = false →
       ((kvs.lookup "name").getD PyVal.none).isStrEq "calculate" = false →
       handle_tools_call now mid (.dict kvs)
         = .ok { id := some mid,
                 error := some ⟨-32602,
                   "Unknown tool: " ++ pyStr ((kvs.lookup "name").getD PyVal.none)⟩ })
    ∧ (∀ mid : PyVal, ∀ kvs : List (String × PyVal), ∃ t,
       handle_tools_call now mid
           (.dict [("name", .str "get_weather"), ("arguments", .dict kvs)])
         = .ok { id := some mid,
                 result := some (.dict [("content", .list [.dict [
                   ("type", .str "text"), ("text", .str t)]])]) })
    ∧ (∀ mid : PyVal, ∀ kvs : List (String × PyVal), ∀ expr : String, ∀ v : PyVal,
       kvs.lookup "expression" = some (.str expr) →
       calcEval (.str expr) = .ok v →
       handle_tools_call now mid
           (.dict [("name", .str "calculate"), ("arguments", .dict kvs)])
         = .ok { id := some mid,
                 result := some (.dict [("content", .list [.dict [
                   ("type", .str "text"),
                   ("text", .str (expr ++ " = " ++ pyStr v))]])]) })
    ∧ (∃ pre post,
       handle_tools_call now (.str "1")
           (.dict [("name", .str "calculate"),
                   ("arguments", .dict [("expression", .str "2 + 3 * 4")])])
         = .ok { id := some (.str "1"),
                 result := some (.dict [("content", .list [.dict [
                   ("type", .str "text"),
                   ("text", .str (pre ++ "14" ++ post))]])]) }) := by
  refine ⟨?_, ?_, ?_, ⟨"2 + 3 * 4 = ", "", rfl⟩⟩
  · intro mid kvs h1 h2
    unfold handle_tools_call
    simp only [pyGet, pyGetD, h1, h2, Bool.false_eq_true, if_false]
  · intro mid kvs
    exact ⟨_, rfl⟩
  · intro mid kvs expr v hl hv
    show Except.ok (calcResponse mid ((kvs.lookup "expression").getD (.str ""))) = _
    rw [hl]
    unfold calcResponse
    simp only [Option.getD_some]
    rw [hv]
    rfl

/-- Witness for C6: the unknown tool `"nope"` is refused with `-32602`. -/
theorem tools_call_contract_witness :
    ((([("name", PyVal.str "nope")] : List (String × PyVal)).lookup "name").getD
        PyVal.none).isStrEq "get_weather" = false
    ∧ handle_tools_call "2025-01-01T00:00:00" (.str "9") (.dict [("name", .str "nope")])
        = .ok { id := some (.str "9"),
                error := some ⟨-32602, "Unknown tool: nope"⟩ } :=
  ⟨rfl, (tools_call_contract "2025-01-01T00:00:00").1 (.str "9")
    [("name", .str "nope")] rfl rfl⟩

/-- C7: `resources/read` with an unregistered URI is answered by the `-32602`
error naming that URI; with the registered notes URI the result's `contents`
entry has `mimeType` `"text/plain"` and echoes the requested URI. -/
theorem resources_read_contract (now : String) :
    (∀ mid : PyVal, ∀ kvs : List (String × PyVal),
       ((kvs.lookup "uri").getD PyVal.none).isStrEq "file://notes.txt" = false →
       handle_resources_read now mid (.dict kvs)
         = .ok { id := some mid,
                 error := some ⟨-32602,
                   "Resource not found: " ++ pyStr ((kvs.lookup "uri").getD PyVal.none)⟩ })
    ∧ (∀ mid : PyVal, ∀ kvs : List (String × PyVal),
       kvs.lookup "uri" = some (.str "file://notes.txt") →
       handle_resources_read now mid (.dict kvs)
         = .ok { id := some mid,
                 result := some (.dict [("contents", .list [.dict [
                   ("uri", .str "file://notes.txt"),
                   ("mimeType", .str "text/plain"),
                   ("text", .str (notesText now))]])]) }) := by
  constructor
  · intro mid kvs h1
    unfold handle_resources_read
    simp only [pyGet, h1, Bool.false_eq_true, if_false]
  · intro mid kvs hl
    unfold handle_resources_read
    simp only [pyGet, hl]
    rfl

/-- Witness for C7: an unknown URI is refused naming it, and the notes URI is
served as `text/plain`. -/
theorem resources_read_contract_witness :
    ((([("uri", PyVal.str "file://other.txt")] : List (String × PyVal)).lookup
        "uri").getD PyVal.none).isStrEq "file://notes.txt" = false
    ∧ handle_resources_read "2025-01-01 00:00:00" (.str "5")
          (.dict [("uri", .str "file://other.txt")])
        = .ok { id := some (.str "5"),
                error := some ⟨-32602, "Resource not found: file://other.txt"⟩ }
    ∧ handle_resources_read "2025-01-01 00:00:00" (.str "6")
          (.dict [("uri", .str "file://notes.txt")])
        = .ok { id := some (.str "6"),
                result := some (.dict [("contents", .list [.dict [
                  ("uri", .str "file://notes.txt"),
                  ("mimeType", .str "text/plain"),
                  ("text", .str (notesText "2025-01-01 00:00:00"))]])]) } :=
  ⟨rfl,
   (resources_read_contract "2025-01-01 00:00:00").1 (.str "5")
     [("uri", .str "file://other.txt")] rfl,
   (resources_read_contract "2025-01-01 00:00:00").2 (.str "6")
     [("uri", .str "file://notes.txt")] rfl⟩

/-- Counterexample to C8 as stated: the single input line `5` is valid JSON,
yet the run emits no response at all — `message.get("method")` raises inside
`handle_message`, the `except` clause raises again on `message.get("id")`,
and `main`'s outer `except Exception` breaks the loop. -/
theorem nondict_line_yields_no_response :
    mainLoop MCPServer.mk0 "2025-01-01T00:00:00" [Except.ok (PyVal.int 5)] = []
    ∧ ([Except.ok (PyVal.int 5)] : List DecodedLine).length = 1 :=
  ⟨rfl, rfl⟩

/-- C8 (amended): for every finite input in which each line that decodes at
all decodes to a JSON object, the loop emits exactly one response per line,
at that line's position — the per-request response for decodable lines and
the parse error for undecodable ones. -/
theorem object_lines_one_response_each (s : MCPServer) (now : String)
    (input : List DecodedLine) (h : ∀ l ∈ input, lineOk l = true) :
    mainLoop s now input = input.map (lineResponse s now) := by
  induction input with
  | nil => rfl
  | cons l rest ih =>
    have hl := h l (List.mem_cons_self l rest)
    have hr : ∀ x ∈ rest, lineOk x = true :=
      fun x hx => h x (List.mem_cons_of_mem l hx)
    cases l with
    | error e => simp only [mainLoop, List.map, lineResponse, ih hr]
    | ok m =>
      cases m
      case dict kvs =>
        obtain ⟨r, hm, -, -⟩ := handle_message_dict_spec s now kvs
        simp only [mainLoop, List.map, lineResponse, hm, ih hr]
      all_goals simp [lineOk, PyVal.isDict] at hl

/-- Witness for C8 (amended): two object requests around one undecodable
line produce three responses in positional order. -/
theorem object_lines_one_response_each_witness :
    (∀ l ∈ ([Except.ok (PyVal.dict [("method", PyVal.str "tools/list"), ("id", PyVal.str "1")]),
             Except.error "Expecting value",
             Except.ok (PyVal.dict [("method", PyVal.str "initialize")])] : List DecodedLine),
       lineOk l = true)
    ∧ mainLoop MCPServer.mk0 "2025-01-01T00:00:00"
          [Except.ok (PyVal.dict [("method", PyVal.str "tools/list"), ("id", PyVal.str "1")]),
           Except.error "Expecting value",
           Except.ok (PyVal.dict [("method", PyVal.str "initialize")])]
        = ([Except.ok (PyVal.dict [("method", PyVal.str "tools/list"), ("id", PyVal.str "1")]),
            Except.error "Expecting value",
            Except.ok (PyVal.dict [("method", PyVal.str "initialize")])] : List DecodedLine).map
            (lineResponse MCPServer.mk0 "2025-01-01T00:00:00") :=
  ⟨by decide, object_lines_one_response_each MCPServer.mk0 "2025-01-01T00:00:00" _ (by decide)⟩

/-- C9: every response the server produces — whether emitted by the loop for
any input, or returned by `handle_message` for any decoded value — carries
exactly one of a result payload or an error object. -/
theorem responses_result_error_exclusive (s : MCPServer) (now : String) :
    (∀ input : List DecodedLine, ∀ r ∈ mainLoop s now input, r.exclusivePayload = true)
    ∧ (∀ m r, handle_message s now m = .ok r → r.exclusivePayload = true) := by
  have hm : ∀ m r, handle_message s now m = .ok r → r.exclusivePayload = true := by
    intro m r h
    cases m
    case dict kvs =>
      obtain ⟨r0, h0, -, hex⟩ := handle_message_dict_spec s now kvs
      rw [h0] at h
      injection h with h
      subst h
      exact hex
    all_goals simp [handle_message, handle_message_body, pyGet] at h
  refine ⟨?_, hm⟩
  intro input
  induction input with
  | nil => intro r hr; cases hr
  | cons l rest ih =>
    intro r hr
    cases l with
    | error e =>
      simp only [mainLoop] at hr
      rcases List.mem_cons.mp hr with h | h
      · subst h; rfl
      · exact ih r h
    | ok m =>
      simp only [mainLoop] at hr
      cases h0 : handle_message s now m with
      | ok r0 =>
        rw [h0] at hr
        rcases List.mem_cons.mp hr with h | h
        · subst h; exact hm m _ h0
        · exact ih r h
      | error e =>
        rw [h0] at hr
        cases hr

/-- Witness for C9: the parse-error response of a bad line carries an error
and no result. -/
theorem responses_result_error_exclusive_witness :
    ({ error := some ⟨-32700, "Parse error: Expecting value"⟩ }
        : Response).exclusivePayload = true :=
  (responses_result_error_exclusive MCPServer.mk0 "2025-01-01T00:00:00").1
    [Except.error "Expecting value"]
    { error := some ⟨-32700, "Parse error: Expecting value"⟩ }
    (List.Mem.head _)

/-- C10: `get_weather` never checks its declared schema — although the schema
marks `city` as required, a call whose arguments lack `city` (or with no
arguments member at all) succeeds with the placeholder city `"Unknown"`
instead of an invalid-params error. -/
theorem get_weather_skips_schema_validation (now : String) (mid : PyVal) :
    dictItem (dictItem weatherToolDesc "inputSchema") "required" = .list [.str "city"]
    ∧ (∀ kvs : List (String × PyVal), kvs.lookup "city" = Option.none →
        handle_tools_call now mid
            (.dict [("name", .str "get_weather"), ("arguments", .dict kvs)])
          = .ok { id := some mid,
                  result := some (.dict [("content", .list [.dict [
                    ("type", .str "text"),
                    ("text", .str "Weather in Unknown: Sunny, 22Â°C, Humidity: 65%")]])]) })
    ∧ handle_tools_call now mid (.dict [("name", .str "get_weather")])
        = .ok { id := some mid,
                result := some (.dict [("content", .list [.dict [
                  ("type", .str "text"),
                  ("text", .str "Weather in Unknown: Sunny, 22Â°C, Humidity: 65%")]])]) } := by
  refine ⟨rfl, ?_, rfl⟩
  intro kvs h
  show Except.ok (weatherResponse now mid ((kvs.lookup "city").getD (.str "Unknown"))) = _
  rw [h]
  rfl

/-- Witness for C10: a call with an empty arguments object succeeds with the
placeholder city. -/
theorem get_weather_skips_schema_validation_witness :
    ([] : List (String × PyVal)).lookup "city" = Option.none
    ∧ handle_tools_call "2025-01-01T00:00:00" (.str "5")
          (.dict [("name", .str "get_weather"), ("arguments", .dict [])])
        = .ok { id := some (.str "5"),
                result := some (.dict [("content", .list [.dict [
                  ("type", .str "text"),
                  ("text", .str "Weather in Unknown: Sunny, 22Â°C, Humidity: 65%")]])]) } :=
  ⟨rfl, (get_weather_skips_schema_validation "2025-01-01T00:00:00" (.str "5")).2.1 [] rfl⟩
